import Mathlib

/-!
Shallow embedding of the kangal LoadTest controller core
(`pkg/controller/loadtest.go`) and the ghz reference backend
(`pkg/backends/ghz/resources.go`).

External Kubernetes API calls and the pluggable backend behaviour are
represented by an explicit environment (`SyncEnv`); side effects (API writes
and the log lines the claims talk about) are recorded as traces of `KAction`
values.  Machine integers (`int32` counters, `time.Duration` / `time.Time`
nanoseconds) are modelled as `Int`; Go strings as `String`; Go maps as
association lists with upsert (`mapSet`).  `time.Since t` is `now - t` with
`now` carried in the environment.
-/

/-- Kubernetes `metaV1.OwnerReference`, restricted to the fields the
controller reads: `Kind`, `Name` and the dereferenced `Controller` flag. -/
structure OwnerReference where
  kind : String
  name : String
  controller : Bool
  deriving DecidableEq

/-- `loadTestV1.ImageDetails`: a container image / tag pair (used both for
`spec.masterConfig` and for a backend's configured default image). -/
structure ImageDetails where
  image : String
  tag : String
  deriving DecidableEq

/-- `loadTestV1.LoadTestStatus.JobStatus`, restricted to the field the
controller reads (`CompletionTime`, an optional timestamp). -/
structure LoadTestJobStatus where
  completionTime : Option Int
  deriving DecidableEq

/-- `loadTestV1.LoadTestStatus`.  The Go field `Namespace` is called
`nspace` here because `namespace` is a reserved word in Lean. -/
structure LoadTestStatus where
  phase : String
  nspace : String
  jobStatus : LoadTestJobStatus
  deriving DecidableEq

/-- `loadTestV1.LoadTestSpec`, restricted to the fields the core consumes.
The Go field `Type` is called `type_` here because `type` is reserved. -/
structure LoadTestSpec where
  type_ : String
  testFile : String
  masterConfig : ImageDetails
  tags : List (String × String)
  deriving DecidableEq

/-- `metaV1.ObjectMeta` of a LoadTest (cluster-scoped: no namespace field),
restricted to the fields the core reads. -/
structure ObjectMeta where
  name : String
  creationTimestamp : Int
  deriving DecidableEq

/-- `loadTestV1.LoadTest`: the custom resource. -/
structure LoadTest where
  metadata : ObjectMeta
  spec : LoadTestSpec
  status : LoadTestStatus
  deriving DecidableEq

/-- Modelled from the spec: the `Creating` phase constant of the
`apis/loadtest/v1` package, which is not under `src/` (spec section 3 lists
the phase set).  The concrete string value decides no claim. -/
def LoadTestCreating : String := "Creating"

/-- Modelled from the spec: the `Starting` phase constant (see
`LoadTestCreating`). -/
def LoadTestStarting : String := "Starting"

/-- Modelled from the spec: the `Running` phase constant (see
`LoadTestCreating`). -/
def LoadTestRunning : String := "Running"

/-- Modelled from the spec: the `Finished` phase constant (see
`LoadTestCreating`). -/
def LoadTestFinished : String := "Finished"

/-- Modelled from the spec: the `Errored` phase constant (see
`LoadTestCreating`). -/
def LoadTestErrored : String := "Errored"

/-- Go map read `m[k]` on an association-list model of `map[string]string`. -/
def mapGet (m : List (String × String)) (k : String) : Option String :=
  match m with
  | [] => none
  | (k0, v0) :: rest => if k0 == k then some v0 else mapGet rest k

/-- Go map write `m[k] = v` (upsert) on the association-list model. -/
def mapSet (m : List (String × String)) (k v : String) : List (String × String) :=
  match m with
  | [] => [(k, v)]
  | (k0, v0) :: rest => if k0 == k then (k, v) :: rest else (k0, v0) :: mapSet rest k v

/-- `metaV1.NewControllerRef(&loadtest, ...WithKind("LoadTest"))`: an owner
reference of kind `LoadTest` naming the load test, with `Controller = true`. -/
def newControllerRef (loadtest : LoadTest) : OwnerReference :=
  { kind := "LoadTest", name := loadtest.metadata.name, controller := true }

/-- `checkLoadTestLifeTimeExceeded` (loadtest.go): true when the job's
completion time is set, `now - completionTime > deleteThreshold` and the
phase is Finished or Errored; or when the phase is Errored and
`now - creationTimestamp > deleteThreshold`. -/
def checkLoadTestLifeTimeExceeded (now : Int) (loadTest : LoadTest) (deleteThreshold : Int) : Bool :=
  (match loadTest.status.jobStatus.completionTime with
   | some ct =>
       decide (deleteThreshold < now - ct) &&
         (loadTest.status.phase == LoadTestFinished || loadTest.status.phase == LoadTestErrored)
   | none => false)
  || (loadTest.status.phase == LoadTestErrored &&
        decide (deleteThreshold < now - loadTest.metadata.creationTimestamp))

/-- `coreV1.EnvVar`. -/
structure EnvVar where
  name : String
  value : String
  deriving DecidableEq

/-- `coreV1.VolumeMount`, restricted to the fields ghz sets. -/
structure VolumeMount where
  name : String
  mountPath : String
  subPath : String
  deriving DecidableEq

/-- `coreV1.Volume` backed by a config map, restricted to the fields ghz sets. -/
structure Volume where
  name : String
  configMapName : String
  deriving DecidableEq

/-- `batchV1.JobStatus` counters read by `determineLoadTestStatusFromJobs`
(`int32` in Go, modelled as `Int`). -/
structure JobCounters where
  active : Int
  succeeded : Int
  failed : Int
  deriving DecidableEq

/-- `coreV1.Container`, restricted to the fields ghz sets.  The abstract
resource requirements (`backends.BuildResourceRequirements(b.resources)`)
are carried through as the backend's configured list. -/
structure Container where
  name : String
  image : String
  env : List EnvVar
  resources : List (String × String)
  args : List String
  volumeMounts : List VolumeMount
  deriving DecidableEq

/-- `batchV1.Job`, restricted to the fields ghz sets and the status
counters the phase derivation reads.  The Go field `Namespace` is called
`nspace` here because `namespace` is reserved in Lean. -/
structure Job where
  name : String
  nspace : String
  labels : List (String × String)
  ownerReferences : List OwnerReference
  podLabels : List (String × String)
  podAnnotations : List (String × String)
  restartPolicy : String
  volumes : List Volume
  containers : List Container
  status : JobCounters
  deriving DecidableEq

/-- `coreV1.ConfigMap`, restricted to name and data. -/
structure ConfigMap where
  name : String
  data : List (String × String)
  deriving DecidableEq

namespace ghz

/-- The ghz `Backend` struct, restricted to the configured defaults
`NewJob` reads (`b.image`, `b.podAnnotations`, `b.resources`); the logger
is modelled as trace output of `NewJob`. -/
structure Backend where
  image : ImageDetails
  podAnnotations : List (String × String)
  resources : List (String × String)

/-- `(*Backend).NewTestFileConfigMap` (resources.go): config map
`loadtest-testfile` with key `config.json` holding the test file. -/
def NewTestFileConfigMap (b : Backend) (loadTest : LoadTest) : ConfigMap :=
  { name := "loadtest-testfile",
    data := [("config.json", loadTest.spec.testFile)] }

/-- `(*Backend).NewJob` (resources.go).  The Boolean component of the
result embeds the `logger.Warn` side effect: it is true exactly when the
default-image branch (and its warning) fired. -/
def NewJob (b : Backend) (loadTest : LoadTest) (loadTestFileConfigMap : ConfigMap)
    (reportURL : String) : Job × Bool :=
  let imageRef := loadTest.spec.masterConfig.image ++ ":" ++ loadTest.spec.masterConfig.tag
  let useDefault := imageRef == ":"
  let imageRef := if useDefault then b.image.image ++ ":" ++ b.image.tag else imageRef
  let envVars : List EnvVar :=
    if "" != reportURL then [{ name := "REPORT_PRESIGNED_URL", value := reportURL }] else []
  ({ name := "loadtest-job",
     nspace := loadTest.status.nspace,
     labels := [("name", "loadtest-job")],
     ownerReferences := [newControllerRef loadTest],
     podLabels := [("name", "loadtest-job")],
     podAnnotations := b.podAnnotations,
     restartPolicy := "Never",
     volumes := [{ name := "testfile", configMapName := loadTestFileConfigMap.name }],
     containers := [{ name := "ghz",
                      image := imageRef,
                      env := envVars,
                      resources := b.resources,
                      args := ["--config=/data/config.json", "--output=/results", "--format=html"],
                      volumeMounts := [{ name := "testfile",
                                         mountPath := "/data/config.json",
                                         subPath := "config.json" }] }],
     status := { active := 0, succeeded := 0, failed := 0 } },
   useDefault)

/-- `determineLoadTestStatusFromJobs` (resources.go): maps the job's
counters to a LoadTest phase. -/
def determineLoadTestStatusFromJobs (job : Job) : String :=
  if job.status.failed > 0 then LoadTestErrored
  else if job.status.active > 0 then LoadTestRunning
  else if job.status.succeeded == 0 && job.status.failed == 0 then LoadTestStarting
  else LoadTestFinished

end ghz

/-- Error taxonomy consumed by the reconciler, mirroring the
`k8s.io/apimachinery` predicates `errors.IsNotFound` / `errors.IsConflict`;
every other error is `other`. -/
inductive APIError where
  | notFound
  | conflict
  | other (msg : String)
  deriving DecidableEq

/-- `coreV1.Namespace`, restricted to the fields `newNamespace` sets.
The annotations field name stays plural (as in the Go map it copies). -/
structure KNamespace where
  name : String
  labels : List (String × String)
  annotations : List (String × String)
  ownerRefs : List OwnerReference
  deriving DecidableEq

/-- One observable side effect of the reconciler: a Kubernetes API write or
read, or one of the log lines the claims mention. -/
inductive KAction where
  | listNamespacesA (selector : String)
  | createNamespaceA (ns : KNamespace)
  | backendSyncA (reportURL : String)
  | backendSyncStatusA
  | updateStatusA (lt : LoadTest)
  | updateStatusConflictLogged
  | updateStatusErrorLogged
  | statusUpdatedLogged
  | deleteA (name : String)
  | deleteConflictLogged
  | deleteErrorLogged
  deriving DecidableEq

/-- The controller `Config` fields the reconciler reads. -/
structure Config where
  syncHandlerTimeout : Int
  cleanUpThreshold : Int
  kangalProxyURL : String
  namespaceLabels : List (String × String)
  namespaceAnnotations : List (String × String)

/-- The environment of one reconcile: results of every external call the
sync handler can make (lister reads, namespace list/create, backend
`Sync`/`SyncStatus`, status update, delete), plus the current time. -/
structure SyncEnv where
  now : Int
  lister : String → Except APIError LoadTest
  backendKnown : String → Bool
  listNamespacesResult : Except APIError (List KNamespace)
  createNamespaceErr : Option APIError
  syncErr : Option APIError
  syncStatusFn : LoadTestStatus → LoadTestStatus × Option APIError
  updateStatusErr : Option APIError
  deleteErr : Option APIError

/-- Split a list of characters on `/` (helper for
`splitMetaNamespaceKey`, mirroring Go's `strings.Split`). -/
def splitCharsOnSlash : List Char → List (List Char)
  | [] => [[]]
  | c :: rest =>
    let r := splitCharsOnSlash rest
    if c = '/' then [] :: r
    else
      match r with
      | [] => [[c]]
      | g :: gs => (c :: g) :: gs

/-- `cache.SplitMetaNamespaceKey` (client-go): one segment means a bare
name; two segments mean `namespace/name`; anything else is an error
(`none`). -/
def splitMetaNamespaceKey (key : String) : Option (String × String) :=
  match (splitCharsOnSlash key.toList).map (fun l => String.mk l) with
  | [n] => some ("", n)
  | [ns, n] => some (ns, n)
  | _ => none

/-- The report-URL computation inlined in `syncHandler` (loadtest.go):
`<proxy>/load-test/<name>/report` when a proxy base URL is configured,
empty otherwise. -/
def computeReportURL (proxyURL name : String) : String :=
  if proxyURL != "" then proxyURL ++ "/load-test/" ++ name ++ "/report" else ""

/-- Set `status.namespace` on (a copy of) a load test. -/
def setStatusNamespace (lt : LoadTest) (n : String) : LoadTest :=
  { lt with status := { lt.status with nspace := n } }

/-- `newNamespace` (loadtest.go): a namespace named after the load test,
labelled with the configured namespace labels plus `controller=<name>` and
`app=kangal`, annotated with the configured namespace annotations, owned by
the load test.  (The Go function's error result is always nil.) -/
def newNamespace (loadtest : LoadTest) (namespacelabels : List (String × String))
    (nsAnnotations : List (String × String)) : KNamespace :=
  let labels := mapSet (mapSet namespacelabels "controller" loadtest.metadata.name) "app" "kangal"
  { name := loadtest.metadata.name,
    labels := labels,
    annotations := nsAnnotations,
    ownerRefs := [newControllerRef loadtest] }

/-- `checkOrCreateNamespace` (loadtest.go): skip when `status.namespace` is
already non-empty; otherwise list namespaces with selector
`controller=<name>`, create a fresh `newNamespace` when none exists, and
record the (existing or created) namespace name in the copy's status.
Returns the updated copy (Go mutates it in place) and the action trace. -/
def checkOrCreateNamespace (cfg : Config) (env : SyncEnv) (loadtest : LoadTest) :
    Except APIError LoadTest × List KAction :=
  if loadtest.status.nspace != "" then (.ok loadtest, [])
  else
    let listAct := KAction.listNamespacesA ("controller=" ++ loadtest.metadata.name)
    match env.listNamespacesResult with
    | .error e => (.error e, [listAct])
    | .ok items =>
      match items with
      | [] =>
        let ns := newNamespace loadtest cfg.namespaceLabels cfg.namespaceAnnotations
        match env.createNamespaceErr with
        | some e => (.error e, [listAct, KAction.createNamespaceA ns])
        | none => (.ok (setStatusNamespace loadtest ns.name), [listAct, KAction.createNamespaceA ns])
      | n0 :: _ => (.ok (setStatusNamespace loadtest n0.name), [listAct])

/-- `updateLoadTestStatus` (loadtest.go), run deferred by `syncHandler`: if
the copy's phase differs from the cached object's phase, call
`UpdateStatus` (the status-subresource write); a conflict is handed to
`HandleError`, any other failure is logged; nothing is returned either
way. -/
def updateLoadTestStatus (env : SyncEnv) (loadTest loadTestFromCache : LoadTest) : List KAction :=
  if loadTest.status.phase != loadTestFromCache.status.phase then
    KAction.updateStatusA loadTest ::
      (match env.updateStatusErr with
       | some .conflict => [KAction.updateStatusConflictLogged]
       | some _ => [KAction.updateStatusErrorLogged]
       | none => [KAction.statusUpdatedLogged])
  else []

/-- `deleteLoadTest` (loadtest.go): issue the cluster delete; on a conflict
log the conflict (and fall through to the generic failure log), on any
other failure log it; nothing is returned either way. -/
def deleteLoadTest (env : SyncEnv) (loadTest : LoadTest) : List KAction :=
  KAction.deleteA loadTest.metadata.name ::
    (match env.deleteErr with
     | none => []
     | some .conflict => [KAction.deleteConflictLogged, KAction.deleteErrorLogged]
     | some _ => [KAction.deleteErrorLogged])

/-- Result of the part of `syncHandler` that runs after the deferred status
update has been installed: the returned error, the trace, and the final
state of the deep copy. -/
structure BodyResult where
  err : Option APIError
  actions : List KAction
  finalLt : LoadTest
  deriving DecidableEq

/-- The body of `syncHandler` after the `defer updateLoadTestStatus`:
ensure the namespace, `backend.Sync`, `backend.SyncStatus`, then the
cleanup branch (`CleanUpThreshold != 0 && checkLoadTestLifeTimeExceeded`),
propagating the first error. -/
def syncHandlerBody (cfg : Config) (env : SyncEnv) (reportURL : String) (loadTest : LoadTest) :
    BodyResult :=
  match checkOrCreateNamespace cfg env loadTest with
  | (.error e, acts) => { err := some e, actions := acts, finalLt := loadTest }
  | (.ok lt1, acts) =>
    match env.syncErr with
    | some e => { err := some e, actions := acts ++ [KAction.backendSyncA reportURL], finalLt := lt1 }
    | none =>
      match env.syncStatusFn lt1.status with
      | (st, some e) =>
        { err := some e,
          actions := acts ++ [KAction.backendSyncA reportURL, KAction.backendSyncStatusA],
          finalLt := { lt1 with status := st } }
      | (st, none) =>
        let lt2 := { lt1 with status := st }
        if cfg.cleanUpThreshold != 0 && checkLoadTestLifeTimeExceeded env.now lt2 cfg.cleanUpThreshold then
          { err := none,
            actions := acts ++ [KAction.backendSyncA reportURL, KAction.backendSyncStatusA]
              ++ deleteLoadTest env lt2,
            finalLt := lt2 }
        else
          { err := none,
            actions := acts ++ [KAction.backendSyncA reportURL, KAction.backendSyncStatusA],
            finalLt := lt2 }

/-- Outcome of one `syncHandler` call: the returned error (`none` is Go's
`nil`), the trace, and the final deep copy when one was made. -/
structure SyncOutcome where
  retErr : Option APIError
  actions : List KAction
  finalCopy : Option LoadTest
  deriving DecidableEq

/-- `syncHandler` from the successful lister fetch on: deep-copy the cached
object, compute the report URL, resolve the backend (unknown type is a
returned error), then run the body with the deferred
`updateLoadTestStatus` appended to the trace. -/
def syncFetched (cfg : Config) (env : SyncEnv) (loadTestFromCache : LoadTest) : SyncOutcome :=
  let loadTest := loadTestFromCache
  let reportURL := computeReportURL cfg.kangalProxyURL loadTest.metadata.name
  if env.backendKnown loadTest.spec.type_ then
    let b := syncHandlerBody cfg env reportURL loadTest
    { retErr := b.err,
      actions := b.actions ++ updateLoadTestStatus env b.finalLt loadTestFromCache,
      finalCopy := some b.finalLt }
  else
    { retErr := some (APIError.other "failed to resolve backend"),
      actions := [],
      finalCopy := some loadTest }

/-- `syncHandler` from the lister fetch on: a not-found or conflict error
is swallowed (nil return), any other fetch error is returned. -/
def syncWithName (cfg : Config) (env : SyncEnv) (name : String) : SyncOutcome :=
  match env.lister name with
  | .error .notFound => { retErr := none, actions := [], finalCopy := none }
  | .error .conflict => { retErr := none, actions := [], finalCopy := none }
  | .error (.other m) => { retErr := some (.other m), actions := [], finalCopy := none }
  | .ok loadTestFromCache => syncFetched cfg env loadTestFromCache

/-- `syncHandler` (loadtest.go), as a pure function of the environment: an
invalid key is handed to `HandleError` and nil is returned; otherwise the
namespace part of the key is ignored and the load test is fetched by
name. -/
def syncHandler (cfg : Config) (env : SyncEnv) (key : String) : SyncOutcome :=
  match splitMetaNamespaceKey key with
  | none => { retErr := none, actions := [], finalCopy := none }
  | some (_, name) => syncWithName cfg env name

/-- Work-queue operations issued by the worker for one item. -/
inductive QueueOp where
  | doneOp (key : String)
  | forgetOp (key : String)
  | addRateLimitedOp (key : String)
  deriving DecidableEq

/-- `processNextWorkItem` (loadtest.go), for a string key: run
`syncHandler`; a non-nil error re-queues the key with `AddRateLimited`, a
nil error `Forget`s it; the deferred `Done` always runs last. -/
def processNextWorkItem (cfg : Config) (env : SyncEnv) (key : String) : List QueueOp :=
  match (syncHandler cfg env key).retErr with
  | some _ => [QueueOp.addRateLimitedOp key, QueueOp.doneOp key]
  | none => [QueueOp.forgetOp key, QueueOp.doneOp key]

/-- A metadata view of an owned object (Job or Pod) as `handleObject` sees
it: name, resource version and owner references. -/
structure KObject where
  name : String
  resourceVersion : String
  ownerReferences : List OwnerReference
  deriving DecidableEq

/-- `metaV1.GetControllerOf`: the owner reference with `Controller = true`,
if any. -/
def getControllerOf (o : KObject) : Option OwnerReference :=
  o.ownerReferences.find? (fun r => r.controller)

/-- What an informer event handler receives: a typed object, a tombstone
wrapping one (watch missed the final state), or something else entirely. -/
inductive InformerObject where
  | obj (o : KObject)
  | tombstone (o : KObject)
  | invalid

/-- `cache.MetaNamespaceKeyFunc` on a (cluster-scoped) LoadTest: the bare
name. -/
def metaNamespaceKeyFunc (lt : LoadTest) : String := lt.metadata.name

/-- `enqueueLoadTest` (loadtest.go): derive the key and add it to the work
queue; modelled as the list of keys enqueued. -/
def enqueueLoadTest (lt : LoadTest) : List String := [metaNamespaceKeyFunc lt]

/-- `handleObject` (loadtest.go) after tombstone unwrapping: resolve the
controlling owner reference; ignore objects with no controller or a
non-LoadTest controller; look the owner up in the lister, logging and
ignoring orphans; enqueue the owner's key otherwise. -/
def handleOwned (lister : String → Except APIError LoadTest) (o : KObject) : List String :=
  match getControllerOf o with
  | none => []
  | some ownerRef =>
    if ownerRef.kind != "LoadTest" then []
    else
      match lister ownerRef.name with
      | .error _ => []
      | .ok foo => enqueueLoadTest foo

/-- `handleObject` (loadtest.go): unwrap tombstones, drop undecodable
objects, then resolve the owner; modelled as the list of keys enqueued. -/
def handleObject (lister : String → Except APIError LoadTest) : InformerObject → List String
  | .invalid => []
  | .tombstone o => handleOwned lister o
  | .obj o => handleOwned lister o

/-- The Job `UpdateFunc` closure installed in `NewController`
(loadtest.go): drop the event when the resource versions coincide,
otherwise `handleObject` on the new object. -/
def jobUpdateHandler (lister : String → Except APIError LoadTest) (oldObj newObj : KObject) :
    List String :=
  if newObj.resourceVersion == oldObj.resourceVersion then []
  else handleObject lister (.obj newObj)

/-- The Pod `UpdateFunc` closure installed in `NewController`
(loadtest.go): identical to the Job one. -/
def podUpdateHandler (lister : String → Except APIError LoadTest) (oldObj newObj : KObject) :
    List String :=
  if newObj.resourceVersion == oldObj.resourceVersion then []
  else handleObject lister (.obj newObj)

/-- A concrete load test used by witnesses and counterexamples. -/
def exLoadTest : LoadTest :=
  { metadata := { name := "t1", creationTimestamp := 0 },
    spec := { type_ := "ghz", testFile := "{}", masterConfig := ⟨"", ""⟩, tags := [] },
    status := { phase := LoadTestCreating, nspace := "", jobStatus := { completionTime := none } } }

/-- A concrete lister holding exactly `exLoadTest`. -/
def exLister : String → Except APIError LoadTest :=
  fun n => if n == "t1" then .ok exLoadTest else .error .notFound

/-- A concrete controller configuration used by witnesses. -/
def exConfig : Config :=
  { syncHandlerTimeout := 60,
    cleanUpThreshold := 3600,
    kangalProxyURL := "https://p.example",
    namespaceLabels := [("team", "platform")],
    namespaceAnnotations := [("iam.amazonaws.com/role", "arn")] }

/-- A concrete healthy environment used by witnesses. -/
def exEnv : SyncEnv :=
  { now := 10000,
    lister := exLister,
    backendKnown := fun t => t == "ghz",
    listNamespacesResult := .ok [],
    createNamespaceErr := none,
    syncErr := none,
    syncStatusFn := fun st => ({ st with phase := LoadTestRunning }, none),
    updateStatusErr := none,
    deleteErr := none }

/-- A ghz backend with a configured default image, used by C1's input. -/
def c1Backend : ghz.Backend :=
  { image := ⟨"ghcr.io/bojand/ghz", "latest"⟩, podAnnotations := [], resources := [] }

/-- A load test whose master config has an empty image but a non-empty tag. -/
def c1LoadTest : LoadTest :=
  { exLoadTest with spec := { exLoadTest.spec with masterConfig := ⟨"", "v1"⟩ } }

/-- A job whose status counters report one failure, used by C4's witness. -/
def c4Job : Job :=
  { name := "loadtest-job", nspace := "t1", labels := [], ownerReferences := [],
    podLabels := [], podAnnotations := [], restartPolicy := "Never", volumes := [],
    containers := [], status := { active := 0, succeeded := 0, failed := 1 } }

/-- A pod-like object controlled by the LoadTest `t1`, used by witnesses. -/
def c6Obj : KObject :=
  { name := "pod-1", resourceVersion := "5",
    ownerReferences := [{ kind := "LoadTest", name := "t1", controller := true }] }

/-- An environment whose primary fetch always reports not-found. -/
def exEnvNotFound : SyncEnv := { exEnv with lister := fun _ => .error .notFound }

/-- A finished load test whose lifetime is exceeded at `exEnv.now`. -/
def exFinishedLoadTest : LoadTest :=
  { exLoadTest with
    status := { phase := LoadTestFinished, nspace := "t1",
                jobStatus := { completionTime := some 0 } } }

/-- An environment in which the cleanup delete fires and fails. -/
def exEnvDelete : SyncEnv :=
  { exEnv with
    lister := fun n => if n == "t1" then .ok exFinishedLoadTest else .error .notFound,
    syncStatusFn := fun st => (st, none),
    deleteErr := some (.other "boom") }

/-- A placeholder existing namespace used to instantiate C9. -/
def exNamespace : KNamespace := { name := "ns-x", labels := [], annotations := [], ownerRefs := [] }

/-- A finished load test whose completion time lies beyond the threshold
at time 10, used by C2's witness. -/
def c2LoadTest : LoadTest :=
  { exLoadTest with
    status := { phase := LoadTestFinished, nspace := "t1",
                jobStatus := { completionTime := some 5 } } }

theorem string_eq_empty_of_data (s : String) (h : s.data = []) : s = "" := by
  cases s with
  | mk d => cases h; rfl

theorem append_colon_eq (s t : String) : (s ++ ":" ++ t = ":") ↔ (s = "" ∧ t = "") := by
  constructor
  · intro h
    have hd : s.data ++ [':'] ++ t.data = [':'] := congrArg String.data h
    have hl := congrArg List.length hd
    simp only [List.length_append, List.length_cons, List.length_nil] at hl
    have hs : s.data.length = 0 := by omega
    have ht : t.data.length = 0 := by omega
    rw [List.length_eq_zero] at hs ht
    exact ⟨string_eq_empty_of_data s hs, string_eq_empty_of_data t ht⟩
  · rintro ⟨rfl, rfl⟩; rfl

theorem append_ne_empty_left (s t : String) (h : s ≠ "") : s ++ t ≠ "" := by
  intro hc
  have hd : s.data ++ t.data = [] := congrArg String.data hc
  exact h (string_eq_empty_of_data s (List.append_eq_nil.mp hd).1)

/-- Claim C1 counterexample: with `spec.masterConfig.image = ""` but
`spec.masterConfig.tag = "v1"` (one field empty, not both), the job's
container uses the reference `":v1"` — not the backend's configured default
`"ghcr.io/bojand/ghz:latest"` the claim predicts — and no warning is
logged. -/
theorem C1_counterexample :
    ((ghz.NewJob c1Backend c1LoadTest (ghz.NewTestFileConfigMap c1Backend c1LoadTest) "").1.containers.map
        (fun c => c.image) = [":v1"])
    ∧ ":v1" ≠ "ghcr.io/bojand/ghz:latest"
    ∧ (ghz.NewJob c1Backend c1LoadTest (ghz.NewTestFileConfigMap c1Backend c1LoadTest) "").2 = false := by
  refine ⟨rfl, by decide, rfl⟩

/-- Claim C1 (amended): the job built by the ghz backend's `NewJob` uses
the container image reference `spec.masterConfig.image:spec.masterConfig.tag`,
except that when BOTH fields are empty (the formatted reference is `":"`) it
uses the backend's configured default image reference and logs a warning;
when at least one field is non-empty the literal `image:tag` reference is
used and no warning is logged. -/
theorem C1_amended (b : ghz.Backend) (lt : LoadTest) (cm : ConfigMap) (url : String) :
    ((lt.spec.masterConfig.image = "" ∧ lt.spec.masterConfig.tag = "") →
      (ghz.NewJob b lt cm url).1.containers.map (fun c => c.image)
          = [b.image.image ++ ":" ++ b.image.tag]
        ∧ (ghz.NewJob b lt cm url).2 = true)
    ∧ (¬(lt.spec.masterConfig.image = "" ∧ lt.spec.masterConfig.tag = "") →
      (ghz.NewJob b lt cm url).1.containers.map (fun c => c.image)
          = [lt.spec.masterConfig.image ++ ":" ++ lt.spec.masterConfig.tag]
        ∧ (ghz.NewJob b lt cm url).2 = false) := by
  have hiff : ((lt.spec.masterConfig.image ++ ":" ++ lt.spec.masterConfig.tag == ":") = true)
      ↔ (lt.spec.masterConfig.image = "" ∧ lt.spec.masterConfig.tag = "") := by
    rw [beq_iff_eq]; exact append_colon_eq _ _
  constructor
  · intro h
    simp only [ghz.NewJob, List.map, hiff.mpr h, if_true]
    constructor <;> trivial
  · intro h
    have hfalse : (lt.spec.masterConfig.image ++ ":" ++ lt.spec.masterConfig.tag == ":") = false := by
      rcases Bool.eq_false_or_eq_true (lt.spec.masterConfig.image ++ ":"
          ++ lt.spec.masterConfig.tag == ":") with hf | ht
      · exact absurd (hiff.mp hf) h
      · exact ht
    simp only [ghz.NewJob, List.map, hfalse, if_false]
    constructor <;> trivial

/-- Claim C1 witness for the amended theorem: with both master-config
fields empty the default reference is used and the warning fires. -/
theorem C1_witness :
    (ghz.NewJob c1Backend exLoadTest (ghz.NewTestFileConfigMap c1Backend exLoadTest) "").1.containers.map
        (fun c => c.image) = ["ghcr.io/bojand/ghz" ++ ":" ++ "latest"]
    ∧ (ghz.NewJob c1Backend exLoadTest (ghz.NewTestFileConfigMap c1Backend exLoadTest) "").2 = true :=
  (C1_amended c1Backend exLoadTest (ghz.NewTestFileConfigMap c1Backend exLoadTest) "").1 ⟨rfl, rfl⟩

/-- Claim C2: for every load test and positive threshold,
`checkLoadTestLifeTimeExceeded` returns true exactly when (a) the job
completion time is set, `now - completionTime > threshold`, and the phase
is Finished or Errored, or (b) the phase is Errored and
`now - creationTimestamp > threshold`; and in the boundary case where the
elapsed times equal the threshold it returns false. -/
theorem C2_lifetime (now threshold : Int) (lt : LoadTest) (hpos : 0 < threshold) :
    (checkLoadTestLifeTimeExceeded now lt threshold = true ↔
      ((∃ ct, lt.status.jobStatus.completionTime = some ct ∧ threshold < now - ct ∧
          (lt.status.phase = LoadTestFinished ∨ lt.status.phase = LoadTestErrored)) ∨
        (lt.status.phase = LoadTestErrored ∧ threshold < now - lt.metadata.creationTimestamp)))
    ∧ (∀ ct, lt.status.jobStatus.completionTime = some ct → now - ct = threshold →
        now - lt.metadata.creationTimestamp ≤ threshold →
        checkLoadTestLifeTimeExceeded now lt threshold = false) := by
  have hiff : checkLoadTestLifeTimeExceeded now lt threshold = true ↔
      ((∃ ct, lt.status.jobStatus.completionTime = some ct ∧ threshold < now - ct ∧
          (lt.status.phase = LoadTestFinished ∨ lt.status.phase = LoadTestErrored)) ∨
        (lt.status.phase = LoadTestErrored ∧ threshold < now - lt.metadata.creationTimestamp)) := by
    unfold checkLoadTestLifeTimeExceeded
    cases h : lt.status.jobStatus.completionTime with
    | none =>
      simp only [h, Bool.false_or, Bool.and_eq_true, decide_eq_true_eq, beq_iff_eq]
      constructor
      · intro ⟨h1, h2⟩; exact Or.inr ⟨h1, h2⟩
      · rintro (⟨ct, hct, _⟩ | ⟨h1, h2⟩)
        · exact absurd hct (by simp)
        · exact ⟨h1, h2⟩
    | some ct =>
      simp only [h, Bool.or_eq_true, Bool.and_eq_true, decide_eq_true_eq, beq_iff_eq,
        Option.some.injEq]
      constructor
      · rintro (⟨h1, h2⟩ | ⟨h1, h2⟩)
        · exact Or.inl ⟨ct, rfl, h1, h2⟩
        · exact Or.inr ⟨h1, h2⟩
      · rintro (⟨ct2, hct2, h1, h2⟩ | ⟨h1, h2⟩)
        · cases hct2; exact Or.inl ⟨h1, h2⟩
        · exact Or.inr ⟨h1, h2⟩
  refine ⟨hiff, ?_⟩
  intro ct hct h1 h2
  by_contra hb
  rw [Bool.not_eq_false] at hb
  rcases hiff.mp hb with ⟨ct2, hct2, hlt, _⟩ | ⟨_, hlt⟩
  · rw [hct] at hct2; cases hct2; omega
  · omega

/-- Claim C2 witness: at `now = 10`, `threshold = 4`, completion time `5`
(elapsed `5 > 4`) and phase Finished, the predicate fires; and the theorem
is applied with a positive threshold. -/
theorem C2_witness :
    checkLoadTestLifeTimeExceeded 10 c2LoadTest 4 = true :=
  (C2_lifetime 10 4 c2LoadTest (by decide)).1.mpr
    (Or.inl ⟨5, rfl, by decide, Or.inl rfl⟩)

/-- Claim C4: `determineLoadTestStatusFromJobs` returns Errored when
`failed > 0`; otherwise Running when `active > 0`; otherwise Starting when
`succeeded == 0` and `failed == 0`; otherwise Finished. -/
theorem C4_phase_mapping (job : Job) :
    (0 < job.status.failed → ghz.determineLoadTestStatusFromJobs job = LoadTestErrored)
    ∧ (job.status.failed ≤ 0 → 0 < job.status.active →
        ghz.determineLoadTestStatusFromJobs job = LoadTestRunning)
    ∧ (job.status.failed ≤ 0 → job.status.active ≤ 0 →
        (job.status.succeeded = 0 ∧ job.status.failed = 0) →
        ghz.determineLoadTestStatusFromJobs job = LoadTestStarting)
    ∧ (job.status.failed ≤ 0 → job.status.active ≤ 0 →
        ¬(job.status.succeeded = 0 ∧ job.status.failed = 0) →
        ghz.determineLoadTestStatusFromJobs job = LoadTestFinished) := by
  unfold ghz.determineLoadTestStatusFromJobs
  refine ⟨?_, ?_, ?_, ?_⟩
  · intro h; rw [if_pos h]
  · intro hf ha
    rw [if_neg (by omega), if_pos ha]
  · intro hf ha hsf
    rw [if_neg (by omega), if_neg (by omega),
      if_pos (by simp only [Bool.and_eq_true, beq_iff_eq]; exact hsf)]
  · intro hf ha hsf
    rw [if_neg (by omega), if_neg (by omega),
      if_neg (by simp only [Bool.and_eq_true, beq_iff_eq]; exact hsf)]

/-- Claim C4 witness: a job with one failed pod maps to Errored. -/
theorem C4_witness :
    (0 : Int) < c4Job.status.failed
    ∧ ghz.determineLoadTestStatusFromJobs c4Job = LoadTestErrored :=
  ⟨by decide, (C4_phase_mapping c4Job).1 (by decide)⟩

/-- Claim C6: `handleObject` enqueues nothing when the object has no
controlling owner reference, or the controller is not of kind `LoadTest`,
or the named LoadTest is missing from the cache; only when the named
LoadTest is found is its key enqueued. -/
theorem C6_owner_filter (lister : String → Except APIError LoadTest) (o : KObject) :
    (getControllerOf o = none → handleObject lister (.obj o) = [])
    ∧ (∀ r, getControllerOf o = some r → r.kind ≠ "LoadTest" →
        handleObject lister (.obj o) = [])
    ∧ (∀ r e, getControllerOf o = some r → r.kind = "LoadTest" → lister r.name = .error e →
        handleObject lister (.obj o) = [])
    ∧ (∀ r lt, getControllerOf o = some r → r.kind = "LoadTest" → lister r.name = .ok lt →
        handleObject lister (.obj o) = [metaNamespaceKeyFunc lt]) := by
  refine ⟨?_, ?_, ?_, ?_⟩
  · intro h; simp [handleObject, handleOwned, h]
  · intro r h hk; simp [handleObject, handleOwned, h, hk]
  · intro r e h hk hl; simp [handleObject, handleOwned, h, hk, hl]
  · intro r lt h hk hl
    simp [handleObject, handleOwned, h, hk, hl, enqueueLoadTest]

/-- Claim C6 witness: a pod controlled by the cached LoadTest `t1` causes
exactly the key `t1` to be enqueued. -/
theorem C6_witness :
    handleObject exLister (.obj c6Obj) = [metaNamespaceKeyFunc exLoadTest] :=
  (C6_owner_filter exLister c6Obj).2.2.2
    { kind := "LoadTest", name := "t1", controller := true } exLoadTest rfl rfl rfl

/-- Claim C7: a Job or Pod update event whose new object carries the same
resource version as the old one produces zero enqueues. -/
theorem C7_resync_suppression (lister : String → Except APIError LoadTest)
    (oldObj newObj : KObject) (h : newObj.resourceVersion = oldObj.resourceVersion) :
    jobUpdateHandler lister oldObj newObj = [] ∧ podUpdateHandler lister oldObj newObj = [] := by
  constructor
  · simp [jobUpdateHandler, h]
  · simp [podUpdateHandler, h]

/-- Claim C7 witness: an update event delivering the same object twice
(equal resource versions) enqueues nothing through either handler. -/
theorem C7_witness :
    jobUpdateHandler exLister c6Obj c6Obj = [] ∧ podUpdateHandler exLister c6Obj c6Obj = [] :=
  C7_resync_suppression exLister c6Obj c6Obj rfl

theorem mapGet_mapSet_same (m : List (String × String)) (k v : String) :
    mapGet (mapSet m k v) k = some v := by
  induction m with
  | nil => simp [mapSet, mapGet]
  | cons p rest ih =>
    rcases p with ⟨k0, v0⟩
    cases h : (k0 == k) with
    | true => simp [mapSet, mapGet, h]
    | false => simp [mapSet, mapGet, h, ih]

theorem mapGet_mapSet_ne (m : List (String × String)) (k v k' : String) (h : k' ≠ k) :
    mapGet (mapSet m k v) k' = mapGet m k' := by
  have hkk : (k == k') = false := by
    cases hb : (k == k') with
    | true => exact absurd (beq_iff_eq.mp hb).symm h
    | false => rfl
  induction m with
  | nil => simp [mapSet, mapGet, hkk]
  | cons p rest ih =>
    rcases p with ⟨k0, v0⟩
    cases h0 : (k0 == k) with
    | true =>
      have : k0 = k := beq_iff_eq.mp h0
      simp [mapSet, mapGet, h0, hkk, this]
    | false => simp [mapSet, mapGet, h0, ih]

theorem mem_updateStatusA_iff (env : SyncEnv) (lt cached : LoadTest) (x : LoadTest) :
    KAction.updateStatusA x ∈ updateLoadTestStatus env lt cached ↔
      (x = lt ∧ lt.status.phase ≠ cached.status.phase) := by
  unfold updateLoadTestStatus
  cases h : (lt.status.phase != cached.status.phase) with
  | false =>
    have heq : lt.status.phase = cached.status.phase := by
      simpa using h
    simp [h, heq]
  | true =>
    have hne : lt.status.phase ≠ cached.status.phase := by
      simpa using h
    cases h2 : env.updateStatusErr with
    | none => simp [h, h2, hne]
    | some e => cases e <;> simp [h, h2, hne]

theorem updateStatus_no_syncA (env : SyncEnv) (lt cached : LoadTest) (u : String) :
    KAction.backendSyncA u ∉ updateLoadTestStatus env lt cached := by
  unfold updateLoadTestStatus
  cases h : (lt.status.phase != cached.status.phase) with
  | false => simp [h]
  | true =>
    cases h2 : env.updateStatusErr with
    | none => simp [h, h2]
    | some e => cases e <;> simp [h, h2]

theorem updateStatus_no_deleteA (env : SyncEnv) (lt cached : LoadTest) (n : String) :
    KAction.deleteA n ∉ updateLoadTestStatus env lt cached := by
  unfold updateLoadTestStatus
  cases h : (lt.status.phase != cached.status.phase) with
  | false => simp [h]
  | true =>
    cases h2 : env.updateStatusErr with
    | none => simp [h, h2]
    | some e => cases e <;> simp [h, h2]

theorem delete_no_updateA (env : SyncEnv) (m : LoadTest) (x : LoadTest) :
    KAction.updateStatusA x ∉ deleteLoadTest env m := by
  unfold deleteLoadTest
  cases h : env.deleteErr with
  | none => simp [h]
  | some e => cases e <;> simp [h]

theorem delete_no_syncA (env : SyncEnv) (m : LoadTest) (u : String) :
    KAction.backendSyncA u ∉ deleteLoadTest env m := by
  unfold deleteLoadTest
  cases h : env.deleteErr with
  | none => simp [h]
  | some e => cases e <;> simp [h]

theorem checkOrCreate_no_updateA (cfg : Config) (env : SyncEnv) (lt : LoadTest) (x : LoadTest) :
    KAction.updateStatusA x ∉ (checkOrCreateNamespace cfg env lt).2 := by
  cases h1 : (lt.status.nspace != "") with
  | true => simp [checkOrCreateNamespace, h1]
  | false =>
    cases h2 : env.listNamespacesResult with
    | error e => simp [checkOrCreateNamespace, h1, h2]
    | ok items =>
      cases items with
      | nil =>
        cases h3 : env.createNamespaceErr with
        | none => simp [checkOrCreateNamespace, h1, h2, h3]
        | some e => simp [checkOrCreateNamespace, h1, h2, h3]
      | cons n0 rest => simp [checkOrCreateNamespace, h1, h2]

theorem checkOrCreate_no_syncA (cfg : Config) (env : SyncEnv) (lt : LoadTest) (u : String) :
    KAction.backendSyncA u ∉ (checkOrCreateNamespace cfg env lt).2 := by
  cases h1 : (lt.status.nspace != "") with
  | true => simp [checkOrCreateNamespace, h1]
  | false =>
    cases h2 : env.listNamespacesResult with
    | error e => simp [checkOrCreateNamespace, h1, h2]
    | ok items =>
      cases items with
      | nil =>
        cases h3 : env.createNamespaceErr with
        | none => simp [checkOrCreateNamespace, h1, h2, h3]
        | some e => simp [checkOrCreateNamespace, h1, h2, h3]
      | cons n0 rest => simp [checkOrCreateNamespace, h1, h2]

theorem checkOrCreate_no_deleteA (cfg : Config) (env : SyncEnv) (lt : LoadTest) (n : String) :
    KAction.deleteA n ∉ (checkOrCreateNamespace cfg env lt).2 := by
  cases h1 : (lt.status.nspace != "") with
  | true => simp [checkOrCreateNamespace, h1]
  | false =>
    cases h2 : env.listNamespacesResult with
    | error e => simp [checkOrCreateNamespace, h1, h2]
    | ok items =>
      cases items with
      | nil =>
        cases h3 : env.createNamespaceErr with
        | none => simp [checkOrCreateNamespace, h1, h2, h3]
        | some e => simp [checkOrCreateNamespace, h1, h2, h3]
      | cons n0 rest => simp [checkOrCreateNamespace, h1, h2]

theorem syncHandlerBody_trace (cfg : Config) (env : SyncEnv) (r : String) (lt : LoadTest) :
    (∀ x, KAction.updateStatusA x ∉ (syncHandlerBody cfg env r lt).actions)
    ∧ (∀ u, KAction.backendSyncA u ∈ (syncHandlerBody cfg env r lt).actions → u = r)
    ∧ (∀ n, KAction.deleteA n ∈ (syncHandlerBody cfg env r lt).actions →
        (syncHandlerBody cfg env r lt).err = none) := by
  rcases h1 : checkOrCreateNamespace cfg env lt with ⟨res, acts⟩
  have hco1 : ∀ x, KAction.updateStatusA x ∉ acts := by
    intro x
    have := checkOrCreate_no_updateA cfg env lt x
    rw [h1] at this
    exact this
  have hco2 : ∀ u, KAction.backendSyncA u ∉ acts := by
    intro u
    have := checkOrCreate_no_syncA cfg env lt u
    rw [h1] at this
    exact this
  have hco3 : ∀ n, KAction.deleteA n ∉ acts := by
    intro n
    have := checkOrCreate_no_deleteA cfg env lt n
    rw [h1] at this
    exact this
  cases res with
  | error e =>
    simp only [syncHandlerBody, h1]
    exact ⟨hco1, fun u hu => absurd hu (hco2 u), fun n hn => absurd hn (hco3 n)⟩
  | ok lt1 =>
    cases h2 : env.syncErr with
    | some e =>
      simp only [syncHandlerBody, h1, h2]
      refine ⟨?_, ?_, ?_⟩
      · intro x hx
        rcases List.mem_append.mp hx with hx | hx
        · exact hco1 x hx
        · simp at hx
      · intro u hu
        rcases List.mem_append.mp hu with hu | hu
        · exact absurd hu (hco2 u)
        · simpa using hu
      · intro n hn
        rcases List.mem_append.mp hn with hn | hn
        · exact absurd hn (hco3 n)
        · simp at hn
    | none =>
      rcases h3 : env.syncStatusFn lt1.status with ⟨st, serr⟩
      cases serr with
      | some e =>
        simp only [syncHandlerBody, h1, h2, h3]
        refine ⟨?_, ?_, ?_⟩
        · intro x hx
          rcases List.mem_append.mp hx with hx | hx
          · exact hco1 x hx
          · simp at hx
        · intro u hu
          rcases List.mem_append.mp hu with hu | hu
          · exact absurd hu (hco2 u)
          · simpa using hu
        · intro n hn
          rcases List.mem_append.mp hn with hn | hn
          · exact absurd hn (hco3 n)
          · simp at hn
      | none =>
        cases h4 : (cfg.cleanUpThreshold != 0
            && checkLoadTestLifeTimeExceeded env.now { lt1 with status := st } cfg.cleanUpThreshold) with
        | false =>
          simp only [syncHandlerBody, h1, h2, h3, h4]
          refine ⟨?_, ?_, ?_⟩
          · intro x hx
            rcases List.mem_append.mp hx with hx | hx
            · exact hco1 x hx
            · simp at hx
          · intro u hu
            rcases List.mem_append.mp hu with hu | hu
            · exact absurd hu (hco2 u)
            · simpa using hu
          · intro n hn
            rcases List.mem_append.mp hn with hn | hn
            · exact absurd hn (hco3 n)
            · simp at hn
        | true =>
          simp only [syncHandlerBody, h1, h2, h3, h4]
          refine ⟨?_, ?_, ?_⟩
          · intro x hx
            rcases List.mem_append.mp hx with hx | hx
            · rcases List.mem_append.mp hx with hx | hx
              · exact hco1 x hx
              · simp at hx
            · exact delete_no_updateA env _ x hx
          · intro u hu
            rcases List.mem_append.mp hu with hu | hu
            · rcases List.mem_append.mp hu with hu | hu
              · exact absurd hu (hco2 u)
              · simpa using hu
            · exact absurd hu (delete_no_syncA env _ u)
          · intro n hn
            rfl

theorem checkOrCreate_congr (cfg : Config) (env1 env2 : SyncEnv) (lt : LoadTest)
    (hl : env1.listNamespacesResult = env2.listNamespacesResult)
    (hc : env1.createNamespaceErr = env2.createNamespaceErr) :
    checkOrCreateNamespace cfg env1 lt = checkOrCreateNamespace cfg env2 lt := by
  unfold checkOrCreateNamespace
  rw [hl, hc]

theorem syncHandlerBody_err_congr (cfg : Config) (env1 env2 : SyncEnv) (r : String) (lt : LoadTest)
    (hl : env1.listNamespacesResult = env2.listNamespacesResult)
    (hc : env1.createNamespaceErr = env2.createNamespaceErr)
    (hs : env1.syncErr = env2.syncErr)
    (hf : env1.syncStatusFn = env2.syncStatusFn)
    (hn : env1.now = env2.now) :
    (syncHandlerBody cfg env1 r lt).err = (syncHandlerBody cfg env2 r lt).err := by
  have hco := checkOrCreate_congr cfg env1 env2 lt hl hc
  rcases h1 : checkOrCreateNamespace cfg env2 lt with ⟨res, acts⟩
  rw [h1] at hco
  cases res with
  | error e => simp [syncHandlerBody, hco, h1]
  | ok lt1 =>
    cases h2 : env2.syncErr with
    | some e => simp [syncHandlerBody, hco, h1, hs, h2]
    | none =>
      rcases h3 : env2.syncStatusFn lt1.status with ⟨st, serr⟩
      cases serr with
      | some e => simp [syncHandlerBody, hco, h1, hs, h2, hf, h3]
      | none =>
        cases h4 : (cfg.cleanUpThreshold != 0
            && checkLoadTestLifeTimeExceeded env2.now { lt1 with status := st } cfg.cleanUpThreshold) with
        | false => simp [syncHandlerBody, hco, h1, hs, h2, hf, h3, hn, h4]
        | true => simp [syncHandlerBody, hco, h1, hs, h2, hf, h3, hn, h4]

theorem syncHandler_retErr_congr (cfg : Config) (key : String) (env1 env2 : SyncEnv)
    (hli : env1.lister = env2.lister)
    (hbk : env1.backendKnown = env2.backendKnown)
    (hl : env1.listNamespacesResult = env2.listNamespacesResult)
    (hc : env1.createNamespaceErr = env2.createNamespaceErr)
    (hs : env1.syncErr = env2.syncErr)
    (hf : env1.syncStatusFn = env2.syncStatusFn)
    (hn : env1.now = env2.now) :
    (syncHandler cfg env1 key).retErr = (syncHandler cfg env2 key).retErr := by
  unfold syncHandler
  cases hk : splitMetaNamespaceKey key with
  | none => rfl
  | some p =>
    rcases p with ⟨ns, name⟩
    unfold syncWithName
    rw [hli]
    cases hf2 : env2.lister name with
    | error e => cases e <;> simp [hf2]
    | ok cached =>
      simp only [hf2]
      unfold syncFetched
      rw [hbk]
      cases hb : env2.backendKnown cached.spec.type_ with
      | false => simp [hb]
      | true =>
        simp only [hb, if_true]
        exact syncHandlerBody_err_congr cfg env1 env2 _ cached hl hc hs hf hn

theorem syncHandler_eq_withName (cfg : Config) (env : SyncEnv) (key ns name : String)
    (hsplit : splitMetaNamespaceKey key = some (ns, name)) :
    syncHandler cfg env key = syncWithName cfg env name := by
  unfold syncHandler
  rw [hsplit]

theorem syncWithName_fetched (cfg : Config) (env : SyncEnv) (name : String) (cached : LoadTest)
    (hf : env.lister name = .ok cached) :
    syncWithName cfg env name = syncFetched cfg env cached := by
  unfold syncWithName
  rw [hf]

theorem syncWithName_notFound (cfg : Config) (env : SyncEnv) (name : String)
    (hf : env.lister name = .error .notFound) :
    syncWithName cfg env name = { retErr := none, actions := [], finalCopy := none } := by
  unfold syncWithName
  rw [hf]

theorem syncWithName_conflict (cfg : Config) (env : SyncEnv) (name : String)
    (hf : env.lister name = .error .conflict) :
    syncWithName cfg env name = { retErr := none, actions := [], finalCopy := none } := by
  unfold syncWithName
  rw [hf]

theorem syncWithName_otherErr (cfg : Config) (env : SyncEnv) (name m : String)
    (hf : env.lister name = .error (.other m)) :
    syncWithName cfg env name
      = { retErr := some (.other m), actions := [], finalCopy := none } := by
  unfold syncWithName
  rw [hf]

theorem syncFetched_unknown (cfg : Config) (env : SyncEnv) (cached : LoadTest)
    (hb : env.backendKnown cached.spec.type_ = false) :
    syncFetched cfg env cached
      = { retErr := some (APIError.other "failed to resolve backend"),
          actions := [], finalCopy := some cached } := by
  unfold syncFetched
  dsimp only
  rw [hb]
  rfl

theorem syncFetched_known (cfg : Config) (env : SyncEnv) (cached : LoadTest)
    (hb : env.backendKnown cached.spec.type_ = true) :
    syncFetched cfg env cached
      = { retErr := (syncHandlerBody cfg env
            (computeReportURL cfg.kangalProxyURL cached.metadata.name) cached).err,
          actions := (syncHandlerBody cfg env
              (computeReportURL cfg.kangalProxyURL cached.metadata.name) cached).actions
            ++ updateLoadTestStatus env
                (syncHandlerBody cfg env
                  (computeReportURL cfg.kangalProxyURL cached.metadata.name) cached).finalLt
                cached,
          finalCopy := some (syncHandlerBody cfg env
            (computeReportURL cfg.kangalProxyURL cached.metadata.name) cached).finalLt } := by
  unfold syncFetched
  dsimp only
  rw [hb]
  rfl

/-- Claim C3: for every reconcile in which the primary fetch succeeds, a
status-subresource write (`UpdateStatus`) is attempted if and only if the
deep copy's final `status.phase` differs from the cached object's
`status.phase`, on every exit path; and the outcome of that write — in
particular a conflict — never changes what `syncHandler` returns. -/
theorem C3_status_guard (cfg : Config) (env : SyncEnv) (key : String) (cached : LoadTest)
    (ns name : String) (e : APIError)
    (hsplit : splitMetaNamespaceKey key = some (ns, name))
    (hfetch : env.lister name = .ok cached) :
    ((∃ lt, (syncHandler cfg env key).finalCopy = some lt
        ∧ lt.status.phase ≠ cached.status.phase) ↔
      (∃ lt, KAction.updateStatusA lt ∈ (syncHandler cfg env key).actions))
    ∧ (syncHandler cfg { env with updateStatusErr := some e } key).retErr
        = (syncHandler cfg { env with updateStatusErr := none } key).retErr := by
  have hred : syncHandler cfg env key = syncFetched cfg env cached := by
    rw [syncHandler_eq_withName cfg env key ns name hsplit,
      syncWithName_fetched cfg env name cached hfetch]
  constructor
  · rw [hred]
    cases hb : env.backendKnown cached.spec.type_ with
    | false =>
      rw [syncFetched_unknown cfg env cached hb]
      constructor
      · rintro ⟨lt, hlt, hne⟩
        rw [Option.some_inj] at hlt
        cases hlt
        exact absurd rfl hne
      · rintro ⟨lt, hmem⟩
        exact absurd hmem (List.not_mem_nil _)
    | true =>
      rw [syncFetched_known cfg env cached hb]
      constructor
      · rintro ⟨lt, hlt, hne⟩
        rw [Option.some_inj] at hlt
        cases hlt
        exact ⟨_, List.mem_append_right _ ((mem_updateStatusA_iff env _ cached _).mpr ⟨rfl, hne⟩)⟩
      · rintro ⟨lt, hmem⟩
        rcases List.mem_append.mp hmem with hm | hm
        · exact absurd hm ((syncHandlerBody_trace cfg env _ cached).1 lt)
        · obtain ⟨rfl, hne⟩ := (mem_updateStatusA_iff env _ cached lt).mp hm
          exact ⟨_, rfl, hne⟩
  · exact syncHandler_retErr_congr cfg key _ _ rfl rfl rfl rfl rfl rfl rfl

/-- Claim C3 witness: in a healthy reconcile of `t1`, an injected conflict
on the status write leaves the handler's return value unchanged. -/
theorem C3_witness :
    (syncHandler exConfig { exEnv with updateStatusErr := some .conflict } "t1").retErr
      = (syncHandler exConfig { exEnv with updateStatusErr := none } "t1").retErr :=
  (C3_status_guard exConfig exEnv "t1" exLoadTest "" "t1" .conflict rfl rfl).2

/-- Claim C5: a not-found or conflict error on the primary fetch makes
`syncHandler` return nil and the worker `Forget` the key; any other fetch
error is returned and the worker re-queues the key with `AddRateLimited`
instead of `Forget`. -/
theorem C5_fetch_classification (cfg : Config) (env : SyncEnv) (key ns name m : String)
    (hsplit : splitMetaNamespaceKey key = some (ns, name)) :
    ((env.lister name = .error .notFound ∨ env.lister name = .error .conflict) →
      (syncHandler cfg env key).retErr = none
        ∧ processNextWorkItem cfg env key = [QueueOp.forgetOp key, QueueOp.doneOp key])
    ∧ (env.lister name = .error (.other m) →
      (syncHandler cfg env key).retErr = some (.other m)
        ∧ processNextWorkItem cfg env key
            = [QueueOp.addRateLimitedOp key, QueueOp.doneOp key]) := by
  have hw := syncHandler_eq_withName cfg env key ns name hsplit
  constructor
  · intro h
    have hret : (syncHandler cfg env key).retErr = none := by
      rw [hw]
      rcases h with h | h
      · rw [syncWithName_notFound cfg env name h]
      · rw [syncWithName_conflict cfg env name h]
    refine ⟨hret, ?_⟩
    unfold processNextWorkItem
    rw [hret]
  · intro h
    have hret : (syncHandler cfg env key).retErr = some (.other m) := by
      rw [hw, syncWithName_otherErr cfg env name m h]
    refine ⟨hret, ?_⟩
    unfold processNextWorkItem
    rw [hret]

/-- Claim C5 witness: with the cache fetch reporting not-found for `t1`,
the handler returns nil and the worker forgets the key. -/
theorem C5_witness :
    (syncHandler exConfig exEnvNotFound "t1").retErr = none
    ∧ processNextWorkItem exConfig exEnvNotFound "t1"
        = [QueueOp.forgetOp "t1", QueueOp.doneOp "t1"] :=
  (C5_fetch_classification exConfig exEnvNotFound "t1" "" "t1" "x" rfl).1 (Or.inl rfl)

/-- Claim C8: when a proxy base URL is configured the report URL is exactly
`<proxy>/load-test/<name>/report` — and that is the URL `syncHandler` hands
to `backend.Sync` — and `NewJob` puts a `REPORT_PRESIGNED_URL` variable
with that value into the container's environment; with no proxy configured
the report URL is empty and the environment carries no such variable. -/
theorem C8_report_url (cfg : Config) (env : SyncEnv) (key ns name : String) (cached : LoadTest)
    (b : ghz.Backend) (cm : ConfigMap)
    (hsplit : splitMetaNamespaceKey key = some (ns, name))
    (hfetch : env.lister name = .ok cached) :
    (cfg.kangalProxyURL ≠ "" → ∀ n,
        computeReportURL cfg.kangalProxyURL n
          = cfg.kangalProxyURL ++ "/load-test/" ++ n ++ "/report")
    ∧ (cfg.kangalProxyURL = "" → ∀ n, computeReportURL cfg.kangalProxyURL n = "")
    ∧ (∀ u, KAction.backendSyncA u ∈ (syncHandler cfg env key).actions →
        u = computeReportURL cfg.kangalProxyURL cached.metadata.name)
    ∧ (∀ lt, cfg.kangalProxyURL ≠ "" →
        ∀ c ∈ (ghz.NewJob b lt cm
            (computeReportURL cfg.kangalProxyURL lt.metadata.name)).1.containers,
          ({ name := "REPORT_PRESIGNED_URL",
             value := computeReportURL cfg.kangalProxyURL lt.metadata.name } : EnvVar) ∈ c.env)
    ∧ (∀ lt v, cfg.kangalProxyURL = "" →
        ∀ c ∈ (ghz.NewJob b lt cm
            (computeReportURL cfg.kangalProxyURL lt.metadata.name)).1.containers,
          ({ name := "REPORT_PRESIGNED_URL", value := v } : EnvVar) ∉ c.env) := by
  have hformula : cfg.kangalProxyURL ≠ "" → ∀ n,
      computeReportURL cfg.kangalProxyURL n
        = cfg.kangalProxyURL ++ "/load-test/" ++ n ++ "/report" := by
    intro hp n
    have hb : (cfg.kangalProxyURL != "") = true := by simpa using hp
    simp [computeReportURL, hb]
  refine ⟨hformula, ?_, ?_, ?_, ?_⟩
  · intro hp n
    simp [computeReportURL, hp]
  · intro u hu
    rw [syncHandler_eq_withName cfg env key ns name hsplit,
      syncWithName_fetched cfg env name cached hfetch] at hu
    cases hb : env.backendKnown cached.spec.type_ with
    | false =>
      rw [syncFetched_unknown cfg env cached hb] at hu
      exact absurd hu (List.not_mem_nil _)
    | true =>
      rw [syncFetched_known cfg env cached hb] at hu
      rcases List.mem_append.mp hu with hm | hm
      · exact (syncHandlerBody_trace cfg env _ cached).2.1 u hm
      · exact absurd hm (updateStatus_no_syncA env _ cached u)
  · intro lt hp c hc
    have hurl : computeReportURL cfg.kangalProxyURL lt.metadata.name ≠ "" := by
      rw [hformula hp lt.metadata.name]
      exact append_ne_empty_left _ _
        (append_ne_empty_left _ _ (append_ne_empty_left _ _ hp))
    have henv : ("" != computeReportURL cfg.kangalProxyURL lt.metadata.name) = true := by
      simpa using Ne.symm hurl
    simp only [ghz.NewJob, henv, if_true, List.mem_singleton] at hc
    subst hc
    simp
  · intro lt v hp c hc
    have hempty : computeReportURL cfg.kangalProxyURL lt.metadata.name = "" := by
      simp [computeReportURL, hp]
    have henv : ("" != computeReportURL cfg.kangalProxyURL lt.metadata.name) = false := by
      simp [hempty]
    simp only [ghz.NewJob, henv, if_false, List.mem_singleton] at hc
    subst hc
    simp

/-- Claim C8 witness: with the proxy `https://p.example` configured, the
report URL for `t1` is the expected concatenation. -/
theorem C8_witness :
    computeReportURL exConfig.kangalProxyURL "t1"
      = exConfig.kangalProxyURL ++ "/load-test/" ++ "t1" ++ "/report" :=
  (C8_report_url exConfig exEnv "t1" "" "t1" exLoadTest c1Backend
    (ghz.NewTestFileConfigMap c1Backend exLoadTest) rfl rfl).1 (by decide) "t1"

/-- Claim C9: with `status.namespace` empty and no namespace matching the
`controller=<name>` selector, `checkOrCreateNamespace` creates a namespace
named after the load test — labelled with the configured namespace labels
plus `controller=<name>` and `app=kangal`, annotated with the configured
namespace annotations, owned by the load test — and records its name in
the copy's status; if a namespace already matched, the first listed name is
recorded instead; and with `status.namespace` already non-empty it returns
immediately without mutating anything. -/
theorem C9_check_or_create (cfg : Config) (env : SyncEnv) (lt : LoadTest)
    (n0 : KNamespace) (rest : List KNamespace) :
    (lt.status.nspace ≠ "" → checkOrCreateNamespace cfg env lt = (.ok lt, []))
    ∧ (lt.status.nspace = "" → env.listNamespacesResult = .ok [] →
        env.createNamespaceErr = none →
        (checkOrCreateNamespace cfg env lt =
            (.ok (setStatusNamespace lt
                (newNamespace lt cfg.namespaceLabels cfg.namespaceAnnotations).name),
              [KAction.listNamespacesA ("controller=" ++ lt.metadata.name),
               KAction.createNamespaceA
                 (newNamespace lt cfg.namespaceLabels cfg.namespaceAnnotations)])
          ∧ (newNamespace lt cfg.namespaceLabels cfg.namespaceAnnotations).name
              = lt.metadata.name
          ∧ mapGet (newNamespace lt cfg.namespaceLabels cfg.namespaceAnnotations).labels
              "controller" = some lt.metadata.name
          ∧ mapGet (newNamespace lt cfg.namespaceLabels cfg.namespaceAnnotations).labels
              "app" = some "kangal"
          ∧ (∀ k, k ≠ "controller" → k ≠ "app" →
              mapGet (newNamespace lt cfg.namespaceLabels cfg.namespaceAnnotations).labels k
                = mapGet cfg.namespaceLabels k)
          ∧ (newNamespace lt cfg.namespaceLabels cfg.namespaceAnnotations).annotations
              = cfg.namespaceAnnotations
          ∧ (newNamespace lt cfg.namespaceLabels cfg.namespaceAnnotations).ownerRefs
              = [{ kind := "LoadTest", name := lt.metadata.name, controller := true }]))
    ∧ (lt.status.nspace = "" → env.listNamespacesResult = .ok (n0 :: rest) →
        checkOrCreateNamespace cfg env lt =
          (.ok (setStatusNamespace lt n0.name),
            [KAction.listNamespacesA ("controller=" ++ lt.metadata.name)])) := by
  refine ⟨?_, ?_, ?_⟩
  · intro h
    have hb : (lt.status.nspace != "") = true := by simpa using h
    simp [checkOrCreateNamespace, hb]
  · intro h hl hc
    have hb : (lt.status.nspace != "") = false := by simp [h]
    refine ⟨?_, rfl, ?_, ?_, ?_, rfl, rfl⟩
    · simp [checkOrCreateNamespace, hb, hl, hc]
    · show mapGet (mapSet (mapSet cfg.namespaceLabels "controller" lt.metadata.name)
        "app" "kangal") "controller" = some lt.metadata.name
      rw [mapGet_mapSet_ne _ _ _ _ (by decide)]
      exact mapGet_mapSet_same _ _ _
    · exact mapGet_mapSet_same _ _ _
    · intro k h1 h2
      show mapGet (mapSet (mapSet cfg.namespaceLabels "controller" lt.metadata.name)
        "app" "kangal") k = mapGet cfg.namespaceLabels k
      rw [mapGet_mapSet_ne _ _ _ _ h2, mapGet_mapSet_ne _ _ _ _ h1]
  · intro h hl
    have hb : (lt.status.nspace != "") = false := by simp [h]
    simp [checkOrCreateNamespace, hb, hl]

/-- Claim C9 witness: reconciling `t1` with an empty status namespace and
no matching namespace creates `newNamespace` and records its name. -/
theorem C9_witness :
    checkOrCreateNamespace exConfig exEnv exLoadTest =
      (.ok (setStatusNamespace exLoadTest
          (newNamespace exLoadTest exConfig.namespaceLabels exConfig.namespaceAnnotations).name),
        [KAction.listNamespacesA ("controller=" ++ exLoadTest.metadata.name),
         KAction.createNamespaceA
           (newNamespace exLoadTest exConfig.namespaceLabels exConfig.namespaceAnnotations)]) :=
  ((C9_check_or_create exConfig exEnv exLoadTest exNamespace []).2.1 rfl rfl rfl).1

/-- Claim C10: whenever the cleanup branch issued a delete, `syncHandler`
returns nil — so the worker forgets the key rather than re-queueing it —
and a failing delete (conflict or otherwise) cannot change the handler's
return value, which is independent of the delete outcome. -/
theorem C10_delete_swallowed (cfg : Config) (env : SyncEnv) (key n : String) (e : APIError)
    (hdel : KAction.deleteA n ∈ (syncHandler cfg env key).actions) :
    (syncHandler cfg env key).retErr = none
    ∧ processNextWorkItem cfg env key = [QueueOp.forgetOp key, QueueOp.doneOp key]
    ∧ (syncHandler cfg { env with deleteErr := some e } key).retErr
        = (syncHandler cfg { env with deleteErr := none } key).retErr := by
  have hret : (syncHandler cfg env key).retErr = none := by
    cases hk : splitMetaNamespaceKey key with
    | none =>
      have hz : syncHandler cfg env key
          = { retErr := none, actions := [], finalCopy := none } := by
        unfold syncHandler
        rw [hk]
      rw [hz] at hdel
      exact absurd hdel (List.not_mem_nil _)
    | some p =>
      rcases p with ⟨ns, name⟩
      have hw := syncHandler_eq_withName cfg env key ns name hk
      rw [hw] at hdel ⊢
      cases hf : env.lister name with
      | error e2 =>
        cases e2 with
        | notFound =>
          rw [syncWithName_notFound cfg env name hf] at hdel
          exact absurd hdel (List.not_mem_nil _)
        | conflict =>
          rw [syncWithName_conflict cfg env name hf] at hdel
          exact absurd hdel (List.not_mem_nil _)
        | other m =>
          rw [syncWithName_otherErr cfg env name m hf] at hdel
          exact absurd hdel (List.not_mem_nil _)
      | ok cached =>
        rw [syncWithName_fetched cfg env name cached hf] at hdel ⊢
        cases hb : env.backendKnown cached.spec.type_ with
        | false =>
          rw [syncFetched_unknown cfg env cached hb] at hdel
          exact absurd hdel (List.not_mem_nil _)
        | true =>
          rw [syncFetched_known cfg env cached hb] at hdel ⊢
          rcases List.mem_append.mp hdel with hm | hm
          · exact (syncHandlerBody_trace cfg env _ cached).2.2 n hm
          · exact absurd hm (updateStatus_no_deleteA env _ cached n)
  refine ⟨hret, ?_, ?_⟩
  · unfold processNextWorkItem
    rw [hret]
  · exact syncHandler_retErr_congr cfg key _ _ rfl rfl rfl rfl rfl rfl rfl

/-- Claim C10 witness: a finished, lifetime-exceeded `t1` is deleted, the
delete fails, and the reconcile still returns nil and forgets the key. -/
theorem C10_witness :
    (syncHandler exConfig exEnvDelete "t1").retErr = none
    ∧ processNextWorkItem exConfig exEnvDelete "t1"
        = [QueueOp.forgetOp "t1", QueueOp.doneOp "t1"]
    ∧ (syncHandler exConfig { exEnvDelete with deleteErr := some .conflict } "t1").retErr
        = (syncHandler exConfig { exEnvDelete with deleteErr := none } "t1").retErr :=
  C10_delete_swallowed exConfig exEnvDelete "t1" "t1" .conflict (by decide)
